import Mathlib

/-!
Verification of claude-reflect: shallow embedding of the classification
pipeline (scripts/lib/embedding_classifier.py, scripts/lib/reflect_utils.py,
scripts/lib/daemon_client.py, scripts/embedding_server.py).

Similarity scores and confidences are modelled as exact rationals (ℚ);
embedding vectors as lists of rationals.  Fallible operations return
Except/Option.  Side-effecting functions take and return an explicit state.
-/

namespace ClaudeReflect

/-- The 5-tuple returned by every classifier entry point:
(type, matched_patterns, confidence, sentiment, decay_days). -/
abbrev ClassifyResult := Option String × String × ℚ × String × Int

/-- The shared reject / silent-degradation tuple `(None, "", 0.0, "correction", 90)`. -/
def rejectTuple : ClassifyResult := (none, "", 0, "correction", 90)

/-! ## embedding_classifier.py -/

/-- Constant `CORRECTION_THRESHOLD = 0.45` -/
def CORRECTION_THRESHOLD : ℚ := 0.45
/-- Constant `GUARDRAIL_THRESHOLD = 0.50` -/
def GUARDRAIL_THRESHOLD : ℚ := 0.50
/-- Constant `POSITIVE_THRESHOLD = 0.50` -/
def POSITIVE_THRESHOLD : ℚ := 0.50
/-- Constant `NOT_LEARNING_THRESHOLD = 0.40` (declared in the source; not consulted by
`classify_message`, which only branches on the three accept categories). -/
def NOT_LEARNING_THRESHOLD : ℚ := 0.40

/-- Dot product of two vectors, `np.dot` on equal-length 1-d arrays. -/
def dotProduct (a b : List ℚ) : ℚ := (List.zipWith (· * ·) a b).sum

/-- Source `cosine_similarity(a, b) = float(np.dot(a, b))` — the source assumes both
inputs are already L2-normalized and computes a bare dot product. -/
def cosine_similarity (a b : List ℚ) : ℚ := dotProduct a b

/-- Scan keeping the current maximum, replacing it only on a strictly greater
score — the tie-breaking of Python `max(d, key=d.get)`, which returns the
first maximal element in iteration order. -/
def maxByScore : (String × ℚ) → List (String × ℚ) → (String × ℚ)
  | cur, [] => cur
  | cur, p :: rest => maxByScore (if p.2 > cur.2 then p else cur) rest

/-- Python `max(similarities, key=similarities.get)` together with its score;
`none` models the `ValueError` Python `max` raises on an empty dict. -/
def argmaxFirst : List (String × ℚ) → Option (String × ℚ)
  | [] => none
  | p :: rest => some (maxByScore p rest)

/-- Python `similarities.get(key, default)` on the association list modelling the
Python dict (keys are unique in a dict; `find?` takes the first binding). -/
def getD (sims : List (String × ℚ)) (key : String) (default : ℚ) : ℚ :=
  match sims.find? (fun p => p.1 == key) with
  | some p => p.2
  | none => default

/-- Source `_score_to_confidence(score, min_conf, max_conf)`: clamp the score to
[0, 1], then map linearly onto `[min_conf, max_conf]`. -/
def _score_to_confidence (score min_conf max_conf : ℚ) : ℚ :=
  let score := max 0 (min 1 score)
  min_conf + (max_conf - min_conf) * score

/-- Decision logic of `classify_message` (lines 168–205) given the per-category
similarity map.  `none` models the exception raised on an empty anchor store. -/
def classify_from_similarities (similarities : List (String × ℚ)) :
    Option ClassifyResult :=
  match argmaxFirst similarities with
  | none => none
  | some (best_category, best_score) =>
    let not_learning_score := getD similarities "not_learning" 0
    if best_category = "not_learning" then
      some rejectTuple
    else
      let margin := best_score - not_learning_score
      if best_category = "correction" then
        if best_score < CORRECTION_THRESHOLD ∨ margin < 0.02 then
          some rejectTuple
        else
          some (some "auto", "embedding:" ++ best_category,
            _score_to_confidence best_score 0.60 0.85, "correction", 90)
      else if best_category = "guardrail" then
        if best_score < GUARDRAIL_THRESHOLD ∨ margin < 0.02 then
          some rejectTuple
        else
          some (some "guardrail", "embedding:" ++ best_category,
            _score_to_confidence best_score 0.75 0.90, "correction", 120)
      else if best_category = "positive" then
        if best_score < POSITIVE_THRESHOLD ∨ margin < 0.02 then
          some rejectTuple
        else
          some (some "positive", "embedding:" ++ best_category,
            _score_to_confidence best_score 0.65 0.80, "positive", 90)
      else
        some rejectTuple

/-- Per-category similarities `{c: cosine_similarity(text_emb, anchor[c])}`
computed by the loop at lines 169–171, with anchors an association list in
dict iteration order. -/
def similaritiesOf (text_embedding : List ℚ) (anchors : List (String × List ℚ)) :
    List (String × ℚ) :=
  anchors.map (fun p => (p.1, cosine_similarity text_embedding p.2))

/-- Source `classify_message(text, model, anchor_store)`: the ONNX step
`model.embed(text)` is external data and is modelled by passing the already
computed text embedding; the rest follows the source. -/
def classify_message (text_embedding : List ℚ)
    (anchors : List (String × List ℚ)) : Option ClassifyResult :=
  classify_from_similarities (similaritiesOf text_embedding anchors)

/-- Absolute acceptance threshold of each category, as hard-coded in the
branches of `classify_message`; categories without a branch of their own fall
back to `NOT_LEARNING_THRESHOLD` (never consulted by the code). -/
def category_threshold : String → ℚ
  | "correction" => CORRECTION_THRESHOLD
  | "guardrail" => GUARDRAIL_THRESHOLD
  | "positive" => POSITIVE_THRESHOLD
  | _ => NOT_LEARNING_THRESHOLD

/-! ## reflect_utils.py — detect_patterns and the structural regexes

The seven `FALSE_POSITIVE_PATTERNS` regexes are compiled by hand into string
matchers over the lower-cased character list (`re.IGNORECASE`; the patterns
are ASCII).  `\w` and case folding are modelled over ASCII. -/

/-- Python `\w` (ASCII part): letter, digit or underscore. -/
def isWordChar (c : Char) : Bool := c.isAlphanum || c == '_'

/-- Python `\s` over ASCII: space, tab, newline, carriage return,
form feed, vertical tab. -/
def isSpaceChar (c : Char) : Bool :=
  c == ' ' || c == '\t' || c == '\n' || c == '\r' || c == '\x0b' || c == '\x0c'

/-- The text lower-cased, character by character. -/
def lowerChars (s : String) : List Char := s.data.map Char.toLower

/-- Needle `w` is a literal match at the head of `t`. -/
def startsWithChars : List Char → List Char → Bool
  | [], _ => true
  | _ :: _, [] => false
  | a :: as, b :: bs => a == b && startsWithChars as bs

/-- Needle `w` matches at the head of `t` and is followed by a word boundary `\b`
(end of input or a non-word character). -/
def startsWithWord (w t : List Char) : Bool :=
  startsWithChars w t &&
    (match t.drop w.length with
     | [] => true
     | c :: _ => !isWordChar c)

/-- Python `re.search`: the needle matches at some position of the haystack. -/
def containsChars (needle : List Char) : List Char → Bool
  | [] => startsWithChars needle []
  | c :: rest => startsWithChars needle (c :: rest) || containsChars needle rest

/-- Python `re.search` with an arbitrary matcher applied at every start position. -/
def searchAny (p : List Char → Bool) : List Char → Bool
  | [] => p []
  | c :: rest => p (c :: rest) || searchAny p rest

/-- Python `re.search(r"remember:", text, re.IGNORECASE)`. -/
def contains_remember (text : String) : Bool :=
  containsChars "remember:".data (lowerChars text)

/-- Pattern 1, `\?$`: `$` matches at the end of the string or just before a
final newline. -/
def matchQuestionEnd (t : List Char) : Bool :=
  match t.reverse with
  | '?' :: _ => true
  | '\n' :: '?' :: _ => true
  | _ => false

/-- Alternatives of pattern 2, `^(please|can you|could you|would you|help me)\b`. -/
def taskOpeners : List (List Char) :=
  ["please".data, "can you".data, "could you".data, "would you".data,
   "help me".data]

/-- Pattern 2: task request openers, anchored at the start. -/
def matchTaskOpener (t : List Char) : Bool :=
  taskOpeners.any (fun w => startsWithWord w t)

/-- First group of pattern 3. -/
def taskVerbs : List (List Char) :=
  ["help".data, "fix".data, "check".data, "review".data, "figure out".data,
   "set up".data]

/-- Second group of patterns 3. -/
def taskObjects : List (List Char) :=
  ["this".data, "that".data, "it".data, "the".data]

/-- Pattern 3 matched at the current position:
`(help|fix|check|review|figure out|set up)\s+(this|that|it|the)\b`. -/
def matchVerbObjAt (t : List Char) : Bool :=
  taskVerbs.any (fun v => startsWithChars v t &&
    (let r := t.drop v.length
     let ws := r.takeWhile isSpaceChar
     !ws.isEmpty && taskObjects.any (fun o => startsWithWord o (r.drop ws.length))))

/-- Pattern 3, searched anywhere. -/
def matchTaskVerb (t : List Char) : Bool := searchAny matchVerbObjAt t

/-- The apostrophe character (U+0027). -/
def aposChar : Char := Char.ofNat 39

/-- First group of pattern 4 (the fifth alternative is can-apostrophe-t). -/
def errorWords : List (List Char) :=
  ["error".data, "failed".data, "could not".data, "cannot".data,
   "can".data ++ [aposChar] ++ "t".data, "unable to".data]

/-- Pattern 4 matched at the current position:
error alternatives, then `\s+`, then `\w+` (at least one word character). -/
def matchErrorAt (t : List Char) : Bool :=
  errorWords.any (fun w => startsWithChars w t &&
    (let r := t.drop w.length
     let ws := r.takeWhile isSpaceChar
     !ws.isEmpty &&
       (match r.drop ws.length with
        | c :: _ => isWordChar c
        | [] => false)))

/-- Pattern 4, searched anywhere. -/
def matchErrorDesc (t : List Char) : Bool := searchAny matchErrorAt t

/-- First group of pattern 5. -/
def beVerbs : List (List Char) := ["is".data, "was".data, "are".data, "were".data]

/-- Second group of pattern 5. -/
def negWords : List (List Char) := ["not".data, "broken".data, "failing".data]

/-- Pattern 5 at the current position: `(is|was|are|were)\s+(not|broken|failing)`
(no word boundaries on either side). -/
def matchBugAt (t : List Char) : Bool :=
  beVerbs.any (fun v => startsWithChars v t &&
    (let r := t.drop v.length
     let ws := r.takeWhile isSpaceChar
     !ws.isEmpty && negWords.any (fun n => startsWithChars n (r.drop ws.length))))

/-- Pattern 5, searched anywhere. -/
def matchBugReport (t : List Char) : Bool := searchAny matchBugAt t

/-- Second group of pattern 6. -/
def wantVerbs : List (List Char) := ["need".data, "want".data, "would like".data]

/-- Pattern 6, `^I (need|want|would like)\b`: anchored, the literal `i` and a
single literal space (the input is already lower-cased). -/
def matchTaskRequest (t : List Char) : Bool :=
  match t with
  | 'i' :: ' ' :: rest => wantVerbs.any (fun w => startsWithWord w rest)
  | _ => false

/-- First group of pattern 7. -/
def okWords : List (List Char) := ["ok".data, "okay".data, "alright".data]

/-- Second group of pattern 7. -/
def contWords : List (List Char) := ["so".data, "now".data, "let".data]

/-- Suffix matcher `\s+(so|now|let)` at the head of `r`. -/
def wsThenCont (r : List Char) : Bool :=
  let ws := r.takeWhile isSpaceChar
  !ws.isEmpty && contWords.any (fun w => startsWithChars w (r.drop ws.length))

/-- Pattern 7, `^(ok|okay|alright)[,.]?\s+(so|now|let)`: anchored; the optional
punctuation is tried both present and absent, as regex backtracking does. -/
def matchContinuation (t : List Char) : Bool :=
  okWords.any (fun w => startsWithChars w t &&
    (let r := t.drop w.length
     wsThenCont r ||
       (match r with
        | c :: rest => (c == ',' || c == '.') && wsThenCont rest
        | [] => false)))

/-- The loop over `FALSE_POSITIVE_PATTERNS`: some pattern matches the text. -/
def matches_false_positive (text : String) : Bool :=
  let t := lowerChars text
  matchQuestionEnd t || matchTaskOpener t || matchTaskVerb t ||
    matchErrorDesc t || matchBugReport t || matchTaskRequest t ||
    matchContinuation t

/-- Source `detect_patterns(text)` (reflect_utils.py lines 458–492).  The embedding
daemon of priority 2 is passed as a parameter: `none` models the `ImportError`
fallback, `some f` a successful import of `classify_via_daemon`. -/
def detect_patterns (daemon : Option (String → ClassifyResult)) (text : String) :
    ClassifyResult :=
  if contains_remember text then
    (some "explicit", "remember:", 0.90, "correction", 120)
  else if matches_false_positive text then
    rejectTuple
  else
    match daemon with
    | some classify => classify text
    | none => rejectTuple

/-! ## daemon_client.py — classify_via_daemon and the PID check -/

/-- The decoded JSON response of the server as consumed by
`classify_via_daemon`: every field is read with `.get` and a default. -/
structure DaemonResponse where
  error : Option String := none
  type : Option String := none
  patterns : Option String := none
  confidence : Option ℚ := none
  sentiment : Option String := none
  decay_days : Option Int := none
deriving DecidableEq

/-- Outcomes of the external steps of `classify_via_daemon`.  Each fallible
step is an `Except` whose `error` models a raised exception (connect refusal,
timeout, oversized or malformed response, disconnect, …). -/
structure DaemonEnv where
  ensure_server_running : Except String Bool
  connect : Except String Unit
  send_request : String → Except String Unit
  recv_response : Except String DaemonResponse

/-- Source `classify_via_daemon(text)` (daemon_client.py lines 168–201): the whole
body runs under `try`, and any raised exception, a server that cannot be
started, or a server-reported error all yield the fallback tuple. -/
def classify_via_daemon (env : DaemonEnv) (text : String) : ClassifyResult :=
  let attempt : Except String ClassifyResult := do
    let ready ← env.ensure_server_running
    if !ready then
      return rejectTuple
    let _ ← env.connect
    let _ ← env.send_request text
    let result ← env.recv_response
    if result.error.isSome then
      return rejectTuple
    return (result.type, result.patterns.getD "", result.confidence.getD 0,
      result.sentiment.getD "correction", result.decay_days.getD 90)
  match attempt with
  | .ok r => r
  | .error _ => rejectTuple

/-- State seen by `_is_server_running`: the PID file's contents (if the file
exists) and the signal-0 liveness probe `os.kill(pid, 0)`. -/
structure ServerState where
  pid_file : Option String
  alive : Int → Bool

/-- Python `s.strip()`: drop ASCII whitespace from both ends. -/
def stripChars (s : String) : List Char :=
  ((s.data.dropWhile isSpaceChar).reverse.dropWhile isSpaceChar).reverse

/-- A nonempty all-digit string as a number. -/
def parseDigits (l : List Char) : Option Nat :=
  if !l.isEmpty && l.all Char.isDigit then
    some (l.foldl (fun acc c => acc * 10 + (c.toNat - 48)) 0)
  else
    none

/-- Python `int(contents.strip())`: optional sign then decimal digits, `none` for the
`ValueError` path. -/
def parse_pid (s : String) : Option Int :=
  match stripChars s with
  | '-' :: rest => (parseDigits rest).map (fun n => -(n : Int))
  | '+' :: rest => (parseDigits rest).map (fun n => (n : Int))
  | l => (parseDigits l).map (fun n => (n : Int))

/-- Source `_is_server_running()` (daemon_client.py lines 31–51), returning the
result together with the state after its side effect: a stale PID file (probe
failed) is deleted, everything else is left in place. -/
def _is_server_running (st : ServerState) : Bool × ServerState :=
  match st.pid_file with
  | none => (false, st)
  | some contents =>
    match parse_pid contents with
    | none => (false, st)
    | some pid =>
      if st.alive pid then
        (true, st)
      else
        (false, { st with pid_file := none })

/-! ## embedding_server.py — length-prefixed framing -/

/-- Constant `MAX_MSG_SIZE = 65536`. -/
def MAX_MSG_SIZE : Nat := 65536

/-- Python `struct.unpack(">I", header)`: 4-byte big-endian unsigned length. -/
def beDecode (b0 b1 b2 b3 : Nat) : Nat := ((b0 * 256 + b1) * 256 + b2) * 256 + b3

/-- Source `recv_request(conn)` (embedding_server.py lines 66–88) over the incoming
byte stream; returns the body (or the raised error) together with the bytes
left unconsumed on the stream.  An oversized declared length raises before any
body byte is read; a short stream models a client disconnect, after which the
loop has drained the stream. -/
def recv_request (stream : List Nat) : Except String (List Nat) × List Nat :=
  match stream with
  | b0 :: b1 :: b2 :: b3 :: rest =>
    let msg_len := beDecode b0 b1 b2 b3
    if msg_len > MAX_MSG_SIZE then
      (.error "Message too large", rest)
    else if rest.length < msg_len then
      (.error "Client disconnected", [])
    else
      (.ok (rest.take msg_len), rest.drop msg_len)
  | _ => (.error "Client disconnected", [])

/-- What the server writes back on one connection. -/
inductive ServerResponse
  | result (r : ClassifyResult)
  | err (msg : String)
deriving DecidableEq

/-- The per-connection body of `main` (embedding_server.py lines 142–167):
receive a frame, decode it (`json.loads` + `request.get("text", "")` is the
`parse_text` parameter), reject empty text, otherwise classify; any raised
exception is answered with an error response. -/
def handle_connection (parse_text : List Nat → Except String String)
    (classify : String → ClassifyResult) (stream : List Nat) :
    ServerResponse × List Nat :=
  match recv_request stream with
  | (.error e, rest) => (.err e, rest)
  | (.ok body, rest) =>
    match parse_text body with
    | .error e => (.err e, rest)
    | .ok text =>
      if text = "" then (.err "empty text", rest)
      else (.result (classify text), rest)

/-! ## Helper lemmas -/

/-- The scanning maximum is one of the scanned elements. -/
theorem maxByScore_mem (cur : String × ℚ) (l : List (String × ℚ)) :
    maxByScore cur l ∈ cur :: l := by
  induction l generalizing cur with
  | nil => simp [maxByScore]
  | cons p rest ih =>
    simp only [maxByScore]
    rcases List.mem_cons.mp (ih (if p.2 > cur.2 then p else cur)) with h | h
    · rw [h]
      split_ifs
      · exact List.mem_cons_of_mem _ (List.mem_cons_self _ _)
      · exact List.mem_cons_self _ _
    · exact List.mem_cons_of_mem _ (List.mem_cons_of_mem _ h)

/-- The best category returned by `argmaxFirst` is an entry of the map. -/
theorem argmaxFirst_mem {sims : List (String × ℚ)} {best : String × ℚ}
    (h : argmaxFirst sims = some best) : best ∈ sims := by
  cases sims with
  | nil => simp [argmaxFirst] at h
  | cons p rest =>
    simp only [argmaxFirst, Option.some.injEq] at h
    exact h ▸ maxByScore_mem p rest

/-- Dot product against the pointwise negation flips the sign. -/
theorem dotProduct_map_neg (a : List ℚ) :
    dotProduct a (a.map (fun x => -x)) = -dotProduct a a := by
  induction a with
  | nil => simp [dotProduct]
  | cons x xs ih =>
    simp only [dotProduct, List.map_cons, List.zipWith_cons_cons,
      List.sum_cons] at *
    rw [ih]
    ring

/-! ## Claim theorems -/

/-- C6: the confidence mapping equals `min_conf` at score 0, `max_conf` at
score 1, clamps scores above 1 to the value at 1 and scores below 0 to the
value at 0, and on [0, 1] is the affine map
`min_conf + (max_conf - min_conf) * score`. -/
theorem score_to_confidence_spec (min_conf max_conf : ℚ) :
    _score_to_confidence 0 min_conf max_conf = min_conf ∧
    _score_to_confidence 1 min_conf max_conf = max_conf ∧
    (∀ s : ℚ, 1 ≤ s → _score_to_confidence s min_conf max_conf =
      _score_to_confidence 1 min_conf max_conf) ∧
    (∀ s : ℚ, s ≤ 0 → _score_to_confidence s min_conf max_conf =
      _score_to_confidence 0 min_conf max_conf) ∧
    (∀ s : ℚ, 0 ≤ s → s ≤ 1 → _score_to_confidence s min_conf max_conf =
      min_conf + (max_conf - min_conf) * s) := by
  refine ⟨by simp [_score_to_confidence], by norm_num [_score_to_confidence],
    ?_, ?_, ?_⟩
  · intro s hs
    have h1 : min 1 s = 1 := min_eq_left hs
    simp [_score_to_confidence, h1]
  · intro s hs
    have h1 : min 1 s = s := min_eq_right (hs.trans (by norm_num))
    have h2 : max 0 s = 0 := max_eq_left hs
    simp [_score_to_confidence, h1, h2]
  · intro s hs0 hs1
    have h1 : min 1 s = s := min_eq_right hs1
    have h2 : max 0 s = s := max_eq_right hs0
    simp [_score_to_confidence, h1, h2]

/-- Witness for C6 at the correction band [0.60, 0.85] and scores 0, 1, 1.5,
-0.5 and 0.5. -/
theorem score_to_confidence_spec_witness :
    _score_to_confidence 0 0.60 0.85 = 0.60 ∧
    _score_to_confidence 1 0.60 0.85 = 0.85 ∧
    _score_to_confidence 1.5 0.60 0.85 = _score_to_confidence 1 0.60 0.85 ∧
    _score_to_confidence (-0.5) 0.60 0.85 = _score_to_confidence 0 0.60 0.85 ∧
    _score_to_confidence 0.5 0.60 0.85 = 0.60 + (0.85 - 0.60) * 0.5 :=
  ⟨(score_to_confidence_spec 0.60 0.85).1,
   (score_to_confidence_spec 0.60 0.85).2.1,
   (score_to_confidence_spec 0.60 0.85).2.2.1 1.5 (by norm_num),
   (score_to_confidence_spec 0.60 0.85).2.2.2.1 (-0.5) (by norm_num),
   (score_to_confidence_spec 0.60 0.85).2.2.2.2 0.5 (by norm_num) (by norm_num)⟩

/-- C7 counterexample: the source cosine is a bare dot product, so on the
non-normalized vector [2] the self-similarity is 4, not 1 (±1e-6) as the
claim states for every vector. -/
theorem cosine_self_not_one :
    cosine_similarity [(2 : ℚ)] [(2 : ℚ)] = 4 ∧
    ¬ |cosine_similarity [(2 : ℚ)] [(2 : ℚ)] - 1| ≤ 1 / 1000000 := by
  constructor
  · norm_num [cosine_similarity, dotProduct]
  · norm_num [cosine_similarity, dotProduct]

/-- C7 amended: for L2-normalized vectors (self dot product 1), the cosine of
a vector with itself is 1, with an orthogonal unit vector 0, and with its own
negation (the opposite unit vector) -1. -/
theorem cosine_unit_vectors (a b : List ℚ)
    (ha : dotProduct a a = 1) (hb : dotProduct b b = 1) :
    cosine_similarity a a = 1 ∧
    (dotProduct a b = 0 → cosine_similarity a b = 0) ∧
    cosine_similarity a (a.map (fun x => -x)) = -1 := by
  have := hb
  refine ⟨ha, fun h => h, ?_⟩
  rw [cosine_similarity, dotProduct_map_neg, ha]

/-- Witness for C7 amended at the orthogonal unit pair [1,0], [0,1]. -/
theorem cosine_unit_vectors_witness :
    cosine_similarity [(1 : ℚ), 0] [(1 : ℚ), 0] = 1 ∧
    (dotProduct [(1 : ℚ), 0] [(0 : ℚ), 1] = 0 →
      cosine_similarity [(1 : ℚ), 0] [(0 : ℚ), 1] = 0) ∧
    cosine_similarity [(1 : ℚ), 0] ([(1 : ℚ), 0].map (fun x => -x)) = -1 :=
  cosine_unit_vectors [(1 : ℚ), 0] [(0 : ℚ), 1] (by norm_num [dotProduct])
    (by norm_num [dotProduct])

/-- C2: any text containing the marker "remember:" (case-insensitively,
anywhere) is classified `(explicit, "remember:", 0.90, "correction", 120)` by
`detect_patterns`, whatever else the text contains and whether or not the
embedding daemon is importable. -/
theorem detect_remember_explicit (daemon : Option (String → ClassifyResult))
    (text : String) (h : contains_remember text = true) :
    detect_patterns daemon text =
      (some "explicit", "remember:", 0.90, "correction", 120) := by
  simp [detect_patterns, h]

/-- Witness for C2 on a text that also ends in a question mark (a structural
false-positive pattern). -/
theorem detect_remember_explicit_witness :
    detect_patterns none "REMEMBER: always use uv?" =
      (some "explicit", "remember:", 0.90, "correction", 120) :=
  detect_remember_explicit none _ (by decide)

/-- C3 counterexample: a text that matches a structural false-positive
pattern (it ends in a question mark) but contains "remember:"; the explicit
marker has priority, so the result is the explicit tuple, not the reject
tuple. -/
theorem fp_with_remember_not_reject :
    matches_false_positive "Remember: should I use tabs?" = true ∧
    detect_patterns none "Remember: should I use tabs?" ≠ rejectTuple := by
  refine ⟨by decide, ?_⟩
  have h : contains_remember "Remember: should I use tabs?" = true := by decide
  simp [detect_patterns, h, rejectTuple]

/-- C3 amended: every text that matches a structural false-positive pattern
and does not contain the explicit marker "remember:" is rejected by
`detect_patterns` with the reject tuple, whatever the daemon would say. -/
theorem detect_fp_rejects (daemon : Option (String → ClassifyResult))
    (text : String) (hfp : matches_false_positive text = true)
    (hrem : contains_remember text = false) :
    detect_patterns daemon text = rejectTuple := by
  simp [detect_patterns, hrem, hfp]

/-- Witness for C3 amended on a task-request opener ending in a question
mark. -/
theorem detect_fp_rejects_witness :
    detect_patterns none "Can you please fix it?" = rejectTuple :=
  detect_fp_rejects none _ (by decide) (by decide)

/-- C10: when the best-scoring category is not one of correction, guardrail,
positive or not_learning, `classify_message` falls through every branch and
returns the reject tuple — an unknown category never yields a positive
classification. -/
theorem classify_unknown_best_rejects (sims : List (String × ℚ))
    (best : String × ℚ) (hbest : argmaxFirst sims = some best)
    (h1 : best.1 ≠ "correction") (h2 : best.1 ≠ "guardrail")
    (h3 : best.1 ≠ "positive") (h4 : best.1 ≠ "not_learning") :
    classify_from_similarities sims = some rejectTuple := by
  obtain ⟨c, s⟩ := best
  simp only at h1 h2 h3 h4
  simp [classify_from_similarities, hbest, h1, h2, h3, h4]

/-- Witness for C10: an unknown category "weird" wins with the top score and
the result is the reject tuple. -/
theorem classify_unknown_best_rejects_witness :
    classify_from_similarities
      [("weird", 0.9), ("correction", 0.5), ("not_learning", 0.1)] =
      some rejectTuple :=
  classify_unknown_best_rejects _ ("weird", 0.9)
    (by norm_num [argmaxFirst, maxByScore])
    (by decide) (by decide) (by decide) (by decide)

/-- C5: whenever `classify_message` accepts (non-null label), the output is
fully determined by the winning category: correction ↦ (auto, correction,
90), guardrail ↦ (guardrail, correction, 120), positive ↦ (positive,
positive, 90), with evidence "embedding:" followed by the category and the
confidence from that category's band. -/
theorem classify_accept_shape (sims : List (String × ℚ)) (best : String × ℚ)
    (r : ClassifyResult) (hbest : argmaxFirst sims = some best)
    (hr : classify_from_similarities sims = some r) (hacc : r.1 ≠ none) :
    (best.1 = "correction" ∧
      r = (some "auto", "embedding:" ++ best.1,
        _score_to_confidence best.2 0.60 0.85, "correction", 90)) ∨
    (best.1 = "guardrail" ∧
      r = (some "guardrail", "embedding:" ++ best.1,
        _score_to_confidence best.2 0.75 0.90, "correction", 120)) ∨
    (best.1 = "positive" ∧
      r = (some "positive", "embedding:" ++ best.1,
        _score_to_confidence best.2 0.65 0.80, "positive", 90)) := by
  obtain ⟨c, s⟩ := best
  simp only [classify_from_similarities, hbest] at hr
  split_ifs at hr with hnl hcor hth hgu hth2 hpo hth3
  · injection hr with hr; subst hr; exact absurd rfl hacc
  · injection hr with hr; subst hr; exact absurd rfl hacc
  · subst hcor; injection hr with hr; subst hr; exact Or.inl ⟨rfl, rfl⟩
  · injection hr with hr; subst hr; exact absurd rfl hacc
  · subst hgu; injection hr with hr; subst hr; exact Or.inr (Or.inl ⟨rfl, rfl⟩)
  · injection hr with hr; subst hr; exact absurd rfl hacc
  · subst hpo; injection hr with hr; subst hr; exact Or.inr (Or.inr ⟨rfl, rfl⟩)
  · injection hr with hr; subst hr; exact absurd rfl hacc

/-- Witness for C5: with correction winning at score 0.6, the output is the
auto/correction/90 shape with evidence "embedding:correction". -/
theorem classify_accept_shape_witness :
    ("correction" = "correction" ∧
      ((some "auto", "embedding:" ++ "correction",
          _score_to_confidence 0.6 0.60 0.85, "correction", 90) : ClassifyResult) =
        (some "auto", "embedding:" ++ "correction",
          _score_to_confidence 0.6 0.60 0.85, "correction", 90)) ∨
    ("correction" = "guardrail" ∧
      ((some "auto", "embedding:" ++ "correction",
          _score_to_confidence 0.6 0.60 0.85, "correction", 90) : ClassifyResult) =
        (some "guardrail", "embedding:" ++ "correction",
          _score_to_confidence 0.6 0.75 0.90, "correction", 120)) ∨
    ("correction" = "positive" ∧
      ((some "auto", "embedding:" ++ "correction",
          _score_to_confidence 0.6 0.60 0.85, "correction", 90) : ClassifyResult) =
        (some "positive", "embedding:" ++ "correction",
          _score_to_confidence 0.6 0.65 0.80, "positive", 90)) :=
  classify_accept_shape [("correction", 0.6), ("not_learning", 0.1)]
    ("correction", 0.6)
    (some "auto", "embedding:" ++ "correction",
      _score_to_confidence 0.6 0.60 0.85, "correction", 90)
    (by norm_num [argmaxFirst, maxByScore])
    (by norm_num [classify_from_similarities, argmaxFirst, maxByScore, getD,
      List.find?, CORRECTION_THRESHOLD,
      (by decide : (("correction" : String) == "not_learning") = false),
      (by decide : (("not_learning" : String) == "not_learning") = true),
      (by decide : ¬("correction" : String) = "not_learning")])
    (by simp)

/-- C4: with the anchor categories drawn from correction, guardrail, positive
and not_learning, `classify_message` rejects exactly when the best category is
not_learning, or the best score is below that category's absolute threshold,
or the margin over the not_learning score is below 0.02. -/
theorem classify_reject_iff (sims : List (String × ℚ)) (best : String × ℚ)
    (hbest : argmaxFirst sims = some best)
    (hkeys : ∀ p ∈ sims, p.1 = "correction" ∨ p.1 = "guardrail" ∨
      p.1 = "positive" ∨ p.1 = "not_learning") :
    (classify_from_similarities sims = some rejectTuple ↔
      best.1 = "not_learning" ∨ best.2 < category_threshold best.1 ∨
        best.2 - getD sims "not_learning" 0 < 0.02) := by
  obtain ⟨c, s⟩ := best
  have hc : c = "correction" ∨ c = "guardrail" ∨ c = "positive" ∨
      c = "not_learning" := hkeys _ (argmaxFirst_mem hbest)
  simp only [classify_from_similarities, hbest]
  rcases hc with hc | hc | hc | hc <;> subst hc
  · have hcat : category_threshold "correction" = CORRECTION_THRESHOLD := rfl
    rw [if_neg (by decide : ¬("correction" : String) = "not_learning"),
      if_pos rfl]
    split_ifs with h
    · exact iff_of_true rfl (Or.inr (by rw [hcat]; exact h))
    · refine iff_of_false ?_ ?_
      · intro heq
        injection heq with heq
        exact Option.noConfusion
          (congrArg Prod.fst heq : some "auto" = (none : Option String))
      · rintro (h1 | h1 | h1)
        · exact (by decide : ¬("correction" : String) = "not_learning") h1
        · exact h (Or.inl (by rwa [hcat] at h1))
        · exact h (Or.inr h1)
  · have hcat : category_threshold "guardrail" = GUARDRAIL_THRESHOLD := rfl
    rw [if_neg (by decide : ¬("guardrail" : String) = "not_learning"),
      if_neg (by decide : ¬("guardrail" : String) = "correction"), if_pos rfl]
    split_ifs with h
    · exact iff_of_true rfl (Or.inr (by rw [hcat]; exact h))
    · refine iff_of_false ?_ ?_
      · intro heq
        injection heq with heq
        exact Option.noConfusion
          (congrArg Prod.fst heq : some "guardrail" = (none : Option String))
      · rintro (h1 | h1 | h1)
        · exact (by decide : ¬("guardrail" : String) = "not_learning") h1
        · exact h (Or.inl (by rwa [hcat] at h1))
        · exact h (Or.inr h1)
  · have hcat : category_threshold "positive" = POSITIVE_THRESHOLD := rfl
    rw [if_neg (by decide : ¬("positive" : String) = "not_learning"),
      if_neg (by decide : ¬("positive" : String) = "correction"),
      if_neg (by decide : ¬("positive" : String) = "guardrail"), if_pos rfl]
    split_ifs with h
    · exact iff_of_true rfl (Or.inr (by rw [hcat]; exact h))
    · refine iff_of_false ?_ ?_
      · intro heq
        injection heq with heq
        exact Option.noConfusion
          (congrArg Prod.fst heq : some "positive" = (none : Option String))
      · rintro (h1 | h1 | h1)
        · exact (by decide : ¬("positive" : String) = "not_learning") h1
        · exact h (Or.inl (by rwa [hcat] at h1))
        · exact h (Or.inr h1)
  · rw [if_pos rfl]
    exact iff_of_true rfl (Or.inl rfl)

/-- Witness for C4 on a four-category store where correction wins at 0.6. -/
theorem classify_reject_iff_witness :
    (classify_from_similarities
        [("correction", 0.6), ("guardrail", 0.3), ("positive", 0.3),
          ("not_learning", 0.1)] = some rejectTuple ↔
      "correction" = "not_learning" ∨
        (0.6 : ℚ) < category_threshold "correction" ∨
        (0.6 : ℚ) - getD [("correction", 0.6), ("guardrail", 0.3),
          ("positive", 0.3), ("not_learning", 0.1)] "not_learning" 0 < 0.02) :=
  classify_reject_iff
    [("correction", 0.6), ("guardrail", 0.3), ("positive", 0.3),
      ("not_learning", 0.1)]
    ("correction", 0.6)
    (by norm_num [argmaxFirst, maxByScore])
    (by
      intro p hp
      simp only [List.mem_cons, List.not_mem_nil, or_false] at hp
      rcases hp with h | h | h | h <;> subst h <;> simp)

/-- C1: `classify_via_daemon` is a total function into the 5-tuple type, and
on every failure path — server not startable, any step raising (connect
refusal, timeout, oversized or malformed response), or a server-reported
error — the result is exactly the fallback tuple
`(None, "", 0.0, "correction", 90)`. -/
theorem classify_via_daemon_fallback (env : DaemonEnv) (text : String)
    (h : (∃ e, env.ensure_server_running = .error e) ∨
      env.ensure_server_running = .ok false ∨
      (∃ e, env.connect = .error e) ∨
      (∃ e, env.send_request text = .error e) ∨
      (∃ e, env.recv_response = .error e) ∨
      (∃ r, env.recv_response = .ok r ∧ r.error.isSome = true)) :
    classify_via_daemon env text = rejectTuple := by
  unfold classify_via_daemon
  rcases hens : env.ensure_server_running with e | b
  · simp [hens, Except.instMonad, Except.bind, Except.pure]
  · rcases b with _ | _
    · simp [hens, Except.instMonad, Except.bind, Except.pure]
    · rcases hcon : env.connect with e | u
      · simp [hens, hcon, Except.instMonad, Except.bind, Except.pure]
      · rcases hsend : env.send_request text with e | u2
        · simp [hens, hcon, hsend, Except.instMonad, Except.bind, Except.pure]
        · rcases hrecv : env.recv_response with e | r
          · simp [hens, hcon, hsend, hrecv, Except.instMonad, Except.bind,
              Except.pure]
          · by_cases herr : r.error.isSome
            · simp [hens, hcon, hsend, hrecv, herr, Except.instMonad,
                Except.bind, Except.pure]
            · exfalso
              rcases h with ⟨e, he⟩ | he | ⟨e, he⟩ | ⟨e, he⟩ | ⟨e, he⟩ |
                ⟨r2, he, herr2⟩
              · rw [hens] at he; exact Except.noConfusion he
              · rw [hens] at he; simp at he
              · rw [hcon] at he; exact Except.noConfusion he
              · rw [hsend] at he; exact Except.noConfusion he
              · rw [hrecv] at he; exact Except.noConfusion he
              · rw [hrecv] at he
                injection he with he
                subst he
                exact herr herr2

/-- Witness for C1: a server that cannot be started yields the fallback. -/
theorem classify_via_daemon_fallback_witness :
    classify_via_daemon
      ⟨Except.ok false, Except.ok (), fun _ => Except.ok (),
        Except.ok {}⟩ "some text" = rejectTuple :=
  classify_via_daemon_fallback _ "some text" (Or.inr (Or.inl rfl))

/-- C8: `_is_server_running` returns false when the PID file is absent;
true (state unchanged) when the file holds a live process id; false AND
deletes the PID file when the liveness probe on the stored id fails. -/
theorem is_server_running_spec (st : ServerState) :
    (st.pid_file = none → _is_server_running st = (false, st)) ∧
    (∀ s pid, st.pid_file = some s → parse_pid s = some pid →
      st.alive pid = true → _is_server_running st = (true, st)) ∧
    (∀ s pid, st.pid_file = some s → parse_pid s = some pid →
      st.alive pid = false →
      _is_server_running st = (false, { st with pid_file := none })) := by
  refine ⟨fun h => by simp [_is_server_running, h], ?_, ?_⟩
  · intro s pid hs hp ha
    simp [_is_server_running, hs, hp, ha]
  · intro s pid hs hp ha
    simp [_is_server_running, hs, hp, ha]

/-- Witness for C8 on concrete states: absent file, live pid 1234, dead
pid 1234. -/
theorem is_server_running_spec_witness :
    _is_server_running ⟨none, fun _ => true⟩ =
      (false, ⟨none, fun _ => true⟩) ∧
    _is_server_running ⟨some "1234", fun _ => true⟩ =
      (true, ⟨some "1234", fun _ => true⟩) ∧
    _is_server_running ⟨some "1234", fun _ => false⟩ =
      (false, { (⟨some "1234", fun _ => false⟩ : ServerState) with
        pid_file := none }) :=
  ⟨(is_server_running_spec _).1 rfl,
   (is_server_running_spec _).2.1 "1234" 1234 rfl (by decide) rfl,
   (is_server_running_spec _).2.2 "1234" 1234 rfl (by decide) rfl⟩

/-- C9: a frame whose 4-byte big-endian declared length exceeds 65536 is
rejected before the body is read (the body bytes stay on the stream) and the
connection is answered with an error response; a declared length of at most
65536 with enough bytes available is read in full. -/
theorem recv_request_size_limit (parse_text : List Nat → Except String String)
    (classify : String → ClassifyResult) (b0 b1 b2 b3 : Nat) (body : List Nat) :
    (beDecode b0 b1 b2 b3 > MAX_MSG_SIZE →
      recv_request (b0 :: b1 :: b2 :: b3 :: body) =
        (Except.error "Message too large", body) ∧
      handle_connection parse_text classify (b0 :: b1 :: b2 :: b3 :: body) =
        (ServerResponse.err "Message too large", body)) ∧
    (beDecode b0 b1 b2 b3 ≤ MAX_MSG_SIZE →
      beDecode b0 b1 b2 b3 ≤ body.length →
      recv_request (b0 :: b1 :: b2 :: b3 :: body) =
        (Except.ok (body.take (beDecode b0 b1 b2 b3)),
          body.drop (beDecode b0 b1 b2 b3))) := by
  constructor
  · intro hbig
    have h1 : recv_request (b0 :: b1 :: b2 :: b3 :: body) =
        (Except.error "Message too large", body) := by
      simp [recv_request, hbig]
    exact ⟨h1, by simp [handle_connection, h1]⟩
  · intro hsize hlen
    have h1 : ¬ beDecode b0 b1 b2 b3 > MAX_MSG_SIZE := by omega
    have h2 : ¬ body.length < beDecode b0 b1 b2 b3 := by omega
    simp [recv_request, h1, h2]

/-- Witness for C9: declared length 65537 is rejected with the body [7]
unconsumed; declared length 2 reads exactly two of the three body bytes. -/
theorem recv_request_size_limit_witness :
    (recv_request [0, 1, 0, 1, 7] = (Except.error "Message too large", [7]) ∧
      handle_connection (fun _ => Except.error "bad json")
        (fun _ => rejectTuple) [0, 1, 0, 1, 7] =
        (ServerResponse.err "Message too large", [7])) ∧
    recv_request [0, 0, 0, 2, 7, 8, 9] = (Except.ok [7, 8], [9]) :=
  ⟨(recv_request_size_limit (fun _ => Except.error "bad json")
      (fun _ => rejectTuple) 0 1 0 1 [7]).1 (by decide),
   (recv_request_size_limit (fun _ => Except.error "bad json")
      (fun _ => rejectTuple) 0 0 0 2 [7, 8, 9]).2 (by decide) (by decide)⟩

end ClaudeReflect
